import Mathlib

/-!
Shallow embedding of `src/freshdesk/main.py`, a FastAPI proxy in front of
the Freshdesk REST API.  Upstream HTTP calls are modelled as oracle
functions from the request data the handler sends to an abstract
`Response`; each route handler becomes a pure Lean function from its
inputs and oracles to a result value.
-/

namespace Freshdesk

/-- JSON values, as produced by `response.json()` and built by the handlers.
Numbers are integers (the handlers only move them around). -/
inductive Json where
  | null
  | bool (b : Bool)
  | num (n : Int)
  | str (s : String)
  | arr (items : List Json)
  | obj (fields : List (String × Json))

/-- An upstream HTTP response as the handlers observe it:
`status` is `response.status_code`;
`contentTypeJson` records whether the `content-type` header contains
`application/json`; `body` is `response.json()`; `text` is `response.text`. -/
structure Response where
  status : Nat
  contentTypeJson : Bool
  body : Json
  text : String

/-- What a route handler produces: a normal return value (`ok`), an explicit
`JSONResponse` with a status code, a raised `HTTPException` carrying a status
code and a detail string, or `diverge` when the modelling fuel of a loop runs
out (never reached under the termination hypotheses). -/
inductive HResult where
  | ok (body : Json)
  | jsonResponse (status : Nat) (content : Json)
  | httpError (status : Nat) (detail : String)
  | diverge

/-- Python `d.get(k)`: the value stored under `k`, or `None` when the key is
absent or the value is not a dict. -/
def jget : Json → String → Json
  | .obj fields, k => (fields.lookup k).getD .null
  | _, _ => .null

/-- The list a handler iterates over with `for x in resp.json()`.  The
handlers only ever receive JSON arrays here; other shapes iterate to
nothing in the model. -/
def asList : Json → List Json
  | .arr items => items
  | _ => []

/-- Python truthiness of a JSON value, as tested by `if not contacts:`. -/
def jsonFalsy : Json → Bool
  | .null => true
  | .bool b => !b
  | .num n => n == 0
  | .str s => s == ""
  | .arr items => items.isEmpty
  | .obj fields => fields.isEmpty

/-- Python `str()` applied to a JSON value, as in `str(contact.get("phone"))`.
`None` prints as `"None"`; container reprs are not needed by any handler
(contact phone fields are strings or null) and are abstracted. -/
def pyStr : Json → String
  | .null => "None"
  | .bool b => if b then "True" else "False"
  | .num n => toString n
  | .str s => s
  | .arr _ => "<list>"
  | .obj _ => "<dict>"

/-- The `TicketCreate` pydantic model: `subject`, `description`, `status` and
`priority` are required; the rest are optional (`tags` and `cc_emails`
default to `[]`, so they are `some []` unless the caller sends `null`). -/
structure TicketCreate where
  name : Option String
  email : Option String
  phone : Option String
  subject : String
  description : String
  status : Int
  priority : Int
  type : Option String
  tags : Option (List String)
  cc_emails : Option (List String)

/-- One optional entry of the serialized payload: present exactly when the
model field is set. -/
def optEntry (k : String) : Option Json → List (String × Json)
  | some j => [(k, j)]
  | none => []

/-- Model of `payload.dict(exclude_none=True)`: the fields of the model in declaration
order, with `None`-valued optional fields omitted. -/
def payloadDict (t : TicketCreate) : List (String × Json) :=
  optEntry "name" (t.name.map Json.str) ++
  optEntry "email" (t.email.map Json.str) ++
  optEntry "phone" (t.phone.map Json.str) ++
  [("subject", Json.str t.subject),
   ("description", Json.str t.description),
   ("status", Json.num t.status),
   ("priority", Json.num t.priority)] ++
  optEntry "type" (t.type.map Json.str) ++
  optEntry "tags" (t.tags.map fun l => Json.arr (l.map Json.str)) ++
  optEntry "cc_emails" (t.cc_emails.map fun l => Json.arr (l.map Json.str))

/-- The fixed body of the `JSONResponse` returned when the upstream answer is
not JSON. -/
def expectedJsonError : Json :=
  Json.obj [("error", Json.str "Expected JSON but got HTML")]

/-- Handler `create_ticket`: POST the non-null payload fields to `/tickets`
(`upstream` is that call).  A response whose content-type is not JSON yields
a fixed 500 `JSONResponse`; a JSON response with status other than 201 raises
`HTTPException(status_code, response.text)`; otherwise the upstream JSON is
projected onto six fields (`description` taken from `description_text`). -/
def create_ticket (p : TicketCreate)
    (upstream : List (String × Json) → Response) : HResult :=
  let resp := upstream (payloadDict p)
  if !resp.contentTypeJson then
    .jsonResponse 500 expectedJsonError
  else if resp.status ≠ 201 then
    .httpError resp.status resp.text
  else
    .ok (Json.obj
      [("id", jget resp.body "id"),
       ("subject", jget resp.body "subject"),
       ("description", jget resp.body "description_text"),
       ("status", jget resp.body "status"),
       ("priority", jget resp.body "priority"),
       ("requester_id", jget resp.body "requester_id")])

/-- Python `s.lower()`: lower-case every character of the token. -/
def pyLower (s : String) : String := ⟨s.data.map Char.toLower⟩

/-- The `status_map` dict of `filter_tickets_by_status`. -/
def status_map : List (String × Nat) := [("open", 2), ("closed", 5)]

/-- Handler `filter_tickets_by_status`: lower-case the query token, reject anything
outside `status_map` with a 400 before any upstream call, otherwise GET the
search endpoint with the query string embedding the numeric code
(`upstream` receives that query string). -/
def filter_tickets_by_status (status : String)
    (upstream : String → Response) : HResult :=
  match status_map.lookup (pyLower status) with
  | none => .httpError 400 "Use 'open' or 'closed'."
  | some code =>
    let query := "\"status:" ++ toString code ++ "\""
    let resp := upstream query
    if resp.status ≠ 200 then .httpError resp.status resp.text
    else .ok resp.body

/-- The match test of the contact search:
`str(contact.get("phone")) == number or str(contact.get("mobile")) == number`. -/
def matchesNumber (number : String) (contact : Json) : Bool :=
  pyStr (jget contact "phone") == number ||
  pyStr (jget contact "mobile") == number

/-- Result of the contact pagination loop: the matched contacts, a raised
`HTTPException`, or fuel exhaustion. -/
inductive LoopRes where
  | ok (matched : List Json)
  | err (status : Nat) (text : String)
  | diverge

/-- The `while True:` pagination loop of `search_tickets_by_contact_number`:
GET `/contacts` with `page` and `per_page=100` (`pages` is that call, taking
the two params), raise on non-200, stop on a falsy body, else collect the
contacts matching `number` and move to the next page.  `fuel` bounds the
recursion in the model. -/
def contactsLoop (pages : Nat → Nat → Response) (number : String) :
    Nat → Nat → LoopRes
  | 0, _ => .diverge
  | fuel + 1, page =>
    let resp := pages page 100
    if resp.status ≠ 200 then .err resp.status resp.text
    else if jsonFalsy resp.body then .ok []
    else
      match contactsLoop pages number fuel (page + 1) with
      | .ok rest => .ok ((asList resp.body).filter (matchesNumber number) ++ rest)
      | other => other

/-- One flattened result record built from a ticket of a matched contact. -/
def ticketRecord (contact ticket : Json) : Json :=
  Json.obj
    [("ticket_id", jget ticket "id"),
     ("subject", jget ticket "subject"),
     ("contact_name", jget contact "name"),
     ("mobile", jget contact "mobile"),
     ("phone", jget contact "phone")]

/-- The second phase of the contact search: for each matched contact GET
`/tickets?requester_id=...` (`ticketsOf` is that call, keyed by the
contact's `id`), skip the contact on a non-200 answer, otherwise append one
record per ticket. -/
def resultsFor (ticketsOf : Json → Response) (matched : List Json) :
    List Json :=
  matched.flatMap fun contact =>
    let resp := ticketsOf (jget contact "id")
    if resp.status ≠ 200 then []
    else (asList resp.body).map (ticketRecord contact)

/-- The no-match answer of the contact search. -/
def noContactMessage : Json :=
  Json.obj [("message", Json.str "No contact found with that number.")]

/-- Handler `search_tickets_by_contact_number`: run the pagination loop, return the
fixed message object when no contact matched, otherwise the flattened list
of ticket records of the matched contacts. -/
def search_tickets_by_contact_number (pages : Nat → Nat → Response)
    (ticketsOf : Json → Response) (number : String) (fuel : Nat) : HResult :=
  match contactsLoop pages number fuel 1 with
  | .diverge => .diverge
  | .err s t => .httpError s t
  | .ok matched =>
    if matched.isEmpty then .ok noContactMessage
    else .ok (Json.arr (resultsFor ticketsOf matched))

/-- The JSON payload `add_note_to_ticket` sends to the notes endpoint. -/
def notePayload (note_body : String) : Json :=
  Json.obj [("body", Json.str note_body), ("incoming", Json.bool false)]

/-- Handler `add_note_to_ticket`: POST `notePayload` to the notes endpoint
of the ticket
(`upstream` is that call); raise on non-201, otherwise confirm with the
echoed note text. -/
def add_note_to_ticket (ticket_id : Int) (note_body : String)
    (upstream : Json → Response) : HResult :=
  let resp := upstream (notePayload note_body)
  if resp.status ≠ 201 then .httpError resp.status resp.text
  else .ok (Json.obj
    [("message", Json.str "Note added"), ("note", Json.str note_body)])

/-- Handler `delete_all_tickets`: GET `/tickets` (`listResp` is that answer), raise
on non-200, then DELETE each listed ticket (`delStatus` gives the status
code of the delete call for a ticket id) and return the ids whose delete
answered 204. -/
def delete_all_tickets (listResp : Response) (delStatus : Json → Nat) :
    HResult :=
  if listResp.status ≠ 200 then .httpError listResp.status "Failed to fetch tickets"
  else
    .ok (Json.obj
      [("deleted_tickets",
        Json.arr ((asList listResp.body).filterMap fun t =>
          let id := jget t "id"
          if delStatus id = 204 then some id else none))])

/-- Dependency `verify_token`: the check every proxy route runs first; a token
different from the configured bearer token raises
`HTTPException(401, "Invalid or missing token")`, otherwise the token is
returned and the route proceeds. -/
def verify_token (token bearer : String) : Except (Nat × String) String :=
  if token ≠ bearer then .error (401, "Invalid or missing token")
  else .ok token

/-- A route of the router `APIRouter(dependencies=[Depends(verify_token)])`:
all five proxy handlers (create ticket, filter by status, search by contact,
add note, bulk delete) are mounted on this router, so each runs only after
`verify_token` succeeds. -/
def guardedRoute (token bearer : String) (handler : Unit → HResult) : HResult :=
  match verify_token token bearer with
  | .error (s, d) => .httpError s d
  | .ok _ => handler ()

/-- Contacts matched on pages `start, start + 1, ..., stop - 1`, in page
order: what the pagination loop collects before it reaches its stopping
page `stop`. -/
def matchedUpTo (pages : Nat → Nat → Response) (number : String)
    (start stop : Nat) : List Json :=
  (List.range' start (stop - start)).flatMap fun p =>
    (asList (pages p 100).body).filter (matchesNumber number)

/-! Concrete fixtures used by the witness theorems. -/

/-- A concrete ticket-creation input. -/
def sampleTicket : TicketCreate :=
  ⟨none, none, none, "Help", "It broke", 2, 1, none, some [], some []⟩

/-- An upstream answer with an HTML body: status 404, no JSON content type. -/
def htmlResp : Response := ⟨404, false, Json.null, "<html>err</html>"⟩

/-- An upstream oracle that always answers with `htmlResp`. -/
def htmlUpstream : List (String × Json) → Response := fun _ => htmlResp

/-- A successful ticket-creation answer: status 201 with a JSON body. -/
def okCreateResp : Response :=
  ⟨201, true,
   Json.obj
     [("id", Json.num 7), ("subject", Json.str "Help"),
      ("description_text", Json.str "It broke"), ("status", Json.num 2),
      ("priority", Json.num 1), ("requester_id", Json.num 42)],
   ""⟩

/-- An upstream oracle that always answers with `okCreateResp`. -/
def okCreateUpstream : List (String × Json) → Response := fun _ => okCreateResp

/-- A search upstream answering 200 with an empty JSON array. -/
def emptySearchUpstream : String → Response := fun _ => ⟨200, true, Json.arr [], ""⟩

/-- A contact whose phone is "123". -/
def contactA : Json :=
  Json.obj [("id", Json.num 1), ("name", Json.str "Al"), ("phone", Json.str "123")]

/-- A contact whose phone is "999". -/
def contactB : Json :=
  Json.obj [("id", Json.num 2), ("name", Json.str "Bo"), ("phone", Json.str "999")]

/-- A second contact whose phone is "123" but whose ticket fetch will fail. -/
def contactBad : Json :=
  Json.obj [("id", Json.num 3), ("name", Json.str "Cy"), ("phone", Json.str "123")]

/-- A contacts listing with one non-empty page (`contactA`, `contactB`)
followed by empty pages. -/
def pagesTwo : Nat → Nat → Response := fun page _ =>
  if page = 1 then ⟨200, true, Json.arr [contactA, contactB], ""⟩
  else ⟨200, true, Json.arr [], ""⟩

/-- A contacts listing whose first page already matches `contactA` and
`contactBad`, followed by empty pages. -/
def pagesWithBad : Nat → Nat → Response := fun page _ =>
  if page = 1 then ⟨200, true, Json.arr [contactA, contactBad], ""⟩
  else ⟨200, true, Json.arr [], ""⟩

/-- A contacts listing that is empty from the first page on. -/
def pagesEmpty : Nat → Nat → Response := fun _ _ => ⟨200, true, Json.arr [], ""⟩

/-- A concrete ticket of requester 1. -/
def ticket7 : Json := Json.obj [("id", Json.num 7), ("subject", Json.str "Hi")]

/-- A tickets-by-requester oracle: requester 1 has `ticket7`; every other
requester id answers 404. -/
def ticketsOracle : Json → Response := fun id =>
  match id with
  | .num 1 => ⟨200, true, Json.arr [ticket7], ""⟩
  | _ => ⟨404, true, Json.null, "not found"⟩

/-- A notes upstream that always answers 201. -/
def noteUpstream : Json → Response := fun _ => ⟨201, true, Json.null, ""⟩

/-- A route handler body returning a fixed value. -/
def constHandler : Unit → HResult := fun _ => .ok Json.null

/-- A tickets listing answer holding tickets 1 and 2. -/
def listRespTwo : Response :=
  ⟨200, true,
   Json.arr [Json.obj [("id", Json.num 1)], Json.obj [("id", Json.num 2)]], ""⟩

/-- A delete oracle on which only ticket 1's delete answers 204. -/
def delOracle : Json → Nat := fun id =>
  match id with
  | .num 1 => 204
  | _ => 404

/-! Helper lemmas. -/

theorem filterMap_guard_eq_filter_map (delStatus : Json → Nat) (l : List Json) :
    (l.filterMap fun t =>
      let id := jget t "id"
      if delStatus id = 204 then some id else none) =
    ((l.map fun t => jget t "id").filter fun id => delStatus id = 204) := by
  induction l with
  | nil => rfl
  | cons a l ih =>
    by_cases h : delStatus (jget a "id") = 204 <;>
      simp [List.filterMap_cons, List.filter_cons, h, ih]

/-- C1: for every bulk-delete request whose ticket listing succeeds, the
operation returns, without error, exactly the ids of the listed tickets whose
individual delete call answered 204; ids whose delete failed are omitted. -/
theorem delete_all_returns_successful_ids (listResp : Response)
    (delStatus : Json → Nat) (h : listResp.status = 200) :
    delete_all_tickets listResp delStatus =
      .ok (Json.obj
        [("deleted_tickets",
          Json.arr (((asList listResp.body).map fun t => jget t "id").filter
            fun id => delStatus id = 204))]) := by
  unfold delete_all_tickets
  rw [if_neg (by simp [h]), filterMap_guard_eq_filter_map]

theorem delete_all_returns_successful_ids_witness :
    listRespTwo.status = 200 ∧
    delete_all_tickets listRespTwo delOracle =
      .ok (Json.obj [("deleted_tickets", Json.arr [Json.num 1])]) := by
  refine ⟨rfl, ?_⟩
  rw [delete_all_returns_successful_ids listRespTwo delOracle rfl]
  rfl

/-- C7: the add-note operation forwards a payload whose `body` is the given
note text and whose `incoming` flag is false, and on upstream status 201
returns a confirmation object echoing the note text exactly. -/
theorem add_note_forwards_and_echoes (tid : Int) (note : String)
    (upstream : Json → Response)
    (h : (upstream (notePayload note)).status = 201) :
    add_note_to_ticket tid note upstream =
      .ok (Json.obj
        [("message", Json.str "Note added"), ("note", Json.str note)]) ∧
    jget (notePayload note) "body" = Json.str note ∧
    jget (notePayload note) "incoming" = Json.bool false := by
  refine ⟨?_, rfl, rfl⟩
  unfold add_note_to_ticket
  simp [h]

theorem add_note_forwards_and_echoes_witness :
    (noteUpstream (notePayload "hello")).status = 201 ∧
    add_note_to_ticket 5 "hello" noteUpstream =
      .ok (Json.obj
        [("message", Json.str "Note added"), ("note", Json.str "hello")]) := by
  exact ⟨rfl, (add_note_forwards_and_echoes 5 "hello" noteUpstream rfl).1⟩

/-- C8: a guarded route of the proxy router rejects any token different from
the configured bearer token with a 401 before running the handler (so no
upstream call happens), and proceeds to the handler on the exact token. -/
theorem bearer_token_guard (token bearer : String) (handler : Unit → HResult) :
    (token ≠ bearer →
      guardedRoute token bearer handler = .httpError 401 "Invalid or missing token") ∧
    (token = bearer → guardedRoute token bearer handler = handler ()) := by
  constructor <;> intro h <;> simp [guardedRoute, verify_token, h]

theorem bearer_token_guard_witness :
    "other" ≠ "mysecrettoken" ∧
    guardedRoute "other" "mysecrettoken" constHandler =
      .httpError 401 "Invalid or missing token" ∧
    guardedRoute "mysecrettoken" "mysecrettoken" constHandler = constHandler () := by
  refine ⟨by decide, ?_, ?_⟩
  · exact (bearer_token_guard "other" "mysecrettoken" constHandler).1 (by decide)
  · exact (bearer_token_guard "mysecrettoken" "mysecrettoken" constHandler).2 rfl

/-- C9: when no contact matched, the contact search returns the fixed
message object, which is not a JSON array, so the endpoint's result shape
differs between the no-match case and the match case. -/
theorem search_no_match_message (pages : Nat → Nat → Response)
    (ticketsOf : Json → Response) (number : String) (fuel : Nat)
    (h : contactsLoop pages number fuel 1 = .ok []) :
    search_tickets_by_contact_number pages ticketsOf number fuel =
      .ok noContactMessage ∧
    ∀ l : List Json, noContactMessage ≠ Json.arr l := by
  constructor
  · unfold search_tickets_by_contact_number
    rw [h]
    rfl
  · intro l h'
    exact Json.noConfusion h'

theorem search_no_match_message_witness :
    contactsLoop pagesEmpty "123" 1 1 = .ok [] ∧
    search_tickets_by_contact_number pagesEmpty ticketsOracle "123" 1 =
      .ok noContactMessage := by
  exact ⟨rfl, (search_no_match_message pagesEmpty ticketsOracle "123" 1 rfl).1⟩

/-- C10: the contact search stringifies the phone and mobile fields before
comparing, a missing or null field stringifies to "None", and hence a search
for the literal number "None" matches every contact lacking a phone or a
mobile field. -/
theorem missing_phone_matches_none (fields : List (String × Json))
    (h : (fields.lookup "phone" = none ∨ fields.lookup "phone" = some Json.null) ∨
         (fields.lookup "mobile" = none ∨ fields.lookup "mobile" = some Json.null)) :
    pyStr Json.null = "None" ∧
    (∀ (n : String) (c : Json),
      matchesNumber n c =
        (pyStr (jget c "phone") == n || pyStr (jget c "mobile") == n)) ∧
    matchesNumber "None" (Json.obj fields) = true := by
  refine ⟨rfl, fun n c => rfl, ?_⟩
  rcases h with (h | h) | (h | h) <;> simp [matchesNumber, jget, h, pyStr]

theorem missing_phone_matches_none_witness :
    ([("name", Json.str "Bo")] : List (String × Json)).lookup "phone" = none ∧
    matchesNumber "None" (Json.obj [("name", Json.str "Bo")]) = true := by
  refine ⟨rfl, ?_⟩
  exact (missing_phone_matches_none [("name", Json.str "Bo")] (Or.inl (Or.inl rfl))).2.2

/-- C2 counterexample: when the upstream answers 404 with an HTML body, the
operation does not surface the upstream status and body verbatim; it returns
the fixed 500 `JSONResponse` instead. -/
theorem create_ticket_nonjson_not_verbatim :
    create_ticket sampleTicket htmlUpstream = .jsonResponse 500 expectedJsonError ∧
    create_ticket sampleTicket htmlUpstream ≠ .httpError 404 "<html>err</html>" := by
  have h1 : create_ticket sampleTicket htmlUpstream =
      .jsonResponse 500 expectedJsonError := rfl
  refine ⟨h1, ?_⟩
  rw [h1]
  intro h
  exact HResult.noConfusion h

/-- C2 (amended): on an upstream response whose content type is JSON and
whose status is not 201, the operation surfaces the upstream status code and
body verbatim; on a response whose content type is not JSON it returns a
fixed 500 error object regardless of the upstream status and body; in both
cases the operation does not succeed. -/
theorem create_ticket_error_paths (p : TicketCreate)
    (upstream : List (String × Json) → Response) :
    ((upstream (payloadDict p)).contentTypeJson = true →
      (upstream (payloadDict p)).status ≠ 201 →
      create_ticket p upstream =
        .httpError (upstream (payloadDict p)).status (upstream (payloadDict p)).text) ∧
    ((upstream (payloadDict p)).contentTypeJson = false →
      create_ticket p upstream = .jsonResponse 500 expectedJsonError) ∧
    ((upstream (payloadDict p)).contentTypeJson = false ∨
        (upstream (payloadDict p)).status ≠ 201 →
      ∀ j, create_ticket p upstream ≠ .ok j) := by
  refine ⟨fun hct hst => ?_, fun hct => ?_, fun h j => ?_⟩
  · unfold create_ticket
    simp [hct, hst]
  · unfold create_ticket
    simp [hct]
  · unfold create_ticket
    rcases h with hct | hst
    · simp [hct]
    · by_cases hct : (upstream (payloadDict p)).contentTypeJson <;> simp [hct, hst]

theorem create_ticket_error_paths_witness :
    ((htmlUpstream (payloadDict sampleTicket)).contentTypeJson = false ∧
      create_ticket sampleTicket htmlUpstream = .jsonResponse 500 expectedJsonError) ∧
    ((okCreateUpstream (payloadDict sampleTicket)).contentTypeJson = true ∧
      (htmlUpstream (payloadDict sampleTicket)).status ≠ 201 ∧
      create_ticket sampleTicket htmlUpstream ≠ .ok Json.null) := by
  refine ⟨⟨rfl, ?_⟩, rfl, by decide, ?_⟩
  · exact (create_ticket_error_paths sampleTicket htmlUpstream).2.1 rfl
  · exact (create_ticket_error_paths sampleTicket htmlUpstream).2.2 (Or.inl rfl) Json.null

/-- C4: the status token is lower-cased and mapped with "open" to 2 and
"closed" to 5; for a valid token the handler forwards the query string
embedding the numeric code to the upstream search endpoint and relays its
answer; any other token yields a 400 client error whatever the upstream
would answer, so no upstream call is made. -/
theorem filter_status_mapping (s : String) (upstream : String → Response) :
    (pyLower s = "open" →
      filter_tickets_by_status s upstream =
        (if (upstream "\"status:2\"").status ≠ 200
         then .httpError (upstream "\"status:2\"").status (upstream "\"status:2\"").text
         else .ok (upstream "\"status:2\"").body)) ∧
    (pyLower s = "closed" →
      filter_tickets_by_status s upstream =
        (if (upstream "\"status:5\"").status ≠ 200
         then .httpError (upstream "\"status:5\"").status (upstream "\"status:5\"").text
         else .ok (upstream "\"status:5\"").body)) ∧
    (pyLower s ≠ "open" → pyLower s ≠ "closed" →
      filter_tickets_by_status s upstream = .httpError 400 "Use 'open' or 'closed'.") := by
  refine ⟨fun h => ?_, fun h => ?_, fun h1 h2 => ?_⟩
  · unfold filter_tickets_by_status
    rw [h]
    rfl
  · unfold filter_tickets_by_status
    rw [h]
    rfl
  · unfold filter_tickets_by_status
    have e1 : (pyLower s == "open") = false := beq_eq_false_iff_ne.mpr h1
    have e2 : (pyLower s == "closed") = false := beq_eq_false_iff_ne.mpr h2
    simp [status_map, List.lookup, e1, e2]

theorem filter_status_mapping_witness :
    pyLower "OPEN" = "open" ∧
    filter_tickets_by_status "OPEN" emptySearchUpstream = .ok (Json.arr []) ∧
    pyLower "pending" ≠ "open" ∧ pyLower "pending" ≠ "closed" ∧
    filter_tickets_by_status "pending" emptySearchUpstream =
      .httpError 400 "Use 'open' or 'closed'." := by
  refine ⟨by decide, ?_, by decide, by decide, ?_⟩
  · rw [(filter_status_mapping "OPEN" emptySearchUpstream).1 (by decide)]
    rfl
  · exact (filter_status_mapping "pending" emptySearchUpstream).2.2 (by decide) (by decide)

theorem map_str_inj {l1 l2 : List String} :
    l1.map Json.str = l2.map Json.str ↔ l1 = l2 :=
  ⟨fun h => List.map_injective_iff.mpr (fun _ _ hab => Json.str.inj hab) h,
   fun h => h ▸ rfl⟩

theorem mem_optEntry {k k' : String} {v : Option Json} {j : Json} :
    (k', j) ∈ optEntry k v ↔ k' = k ∧ v = some j := by
  cases v <;> simp [optEntry, eq_comm]

theorem payloadDict_fields (p : TicketCreate) :
    (∀ s, ("name", Json.str s) ∈ payloadDict p ↔ p.name = some s) ∧
    (∀ s, ("email", Json.str s) ∈ payloadDict p ↔ p.email = some s) ∧
    (∀ s, ("phone", Json.str s) ∈ payloadDict p ↔ p.phone = some s) ∧
    ("subject", Json.str p.subject) ∈ payloadDict p ∧
    ("description", Json.str p.description) ∈ payloadDict p ∧
    ("status", Json.num p.status) ∈ payloadDict p ∧
    ("priority", Json.num p.priority) ∈ payloadDict p ∧
    (∀ s, ("type", Json.str s) ∈ payloadDict p ↔ p.type = some s) ∧
    (∀ l, ("tags", Json.arr (l.map Json.str)) ∈ payloadDict p ↔ p.tags = some l) ∧
    (∀ l, ("cc_emails", Json.arr (l.map Json.str)) ∈ payloadDict p ↔ p.cc_emails = some l) := by
  refine ⟨fun s => ?_, fun s => ?_, fun s => ?_, ?_, ?_, ?_, ?_,
    fun s => ?_, fun l => ?_, fun l => ?_⟩ <;>
    simp [payloadDict, mem_optEntry, Option.map_eq_some', map_str_inj]

/-- C3: on an upstream 201 answer with a JSON body, ticket creation forwards
exactly the non-null fields of the input as the request body (required
fields always, each optional field precisely when set) and returns the
projection of the upstream JSON onto exactly the six fields id, subject,
description (drawn from `description_text`), status, priority,
requester_id. -/
theorem create_ticket_success_projection (p : TicketCreate)
    (upstream : List (String × Json) → Response)
    (hct : (upstream (payloadDict p)).contentTypeJson = true)
    (hst : (upstream (payloadDict p)).status = 201) :
    create_ticket p upstream =
      .ok (Json.obj
        [("id", jget (upstream (payloadDict p)).body "id"),
         ("subject", jget (upstream (payloadDict p)).body "subject"),
         ("description", jget (upstream (payloadDict p)).body "description_text"),
         ("status", jget (upstream (payloadDict p)).body "status"),
         ("priority", jget (upstream (payloadDict p)).body "priority"),
         ("requester_id", jget (upstream (payloadDict p)).body "requester_id")]) ∧
    (∀ s, ("name", Json.str s) ∈ payloadDict p ↔ p.name = some s) ∧
    (∀ s, ("email", Json.str s) ∈ payloadDict p ↔ p.email = some s) ∧
    (∀ s, ("phone", Json.str s) ∈ payloadDict p ↔ p.phone = some s) ∧
    ("subject", Json.str p.subject) ∈ payloadDict p ∧
    ("description", Json.str p.description) ∈ payloadDict p ∧
    ("status", Json.num p.status) ∈ payloadDict p ∧
    ("priority", Json.num p.priority) ∈ payloadDict p ∧
    (∀ s, ("type", Json.str s) ∈ payloadDict p ↔ p.type = some s) ∧
    (∀ l, ("tags", Json.arr (l.map Json.str)) ∈ payloadDict p ↔ p.tags = some l) ∧
    (∀ l, ("cc_emails", Json.arr (l.map Json.str)) ∈ payloadDict p ↔
      p.cc_emails = some l) := by
  refine ⟨?_, payloadDict_fields p⟩
  unfold create_ticket
  simp [hct, hst]

theorem create_ticket_success_projection_witness :
    (okCreateUpstream (payloadDict sampleTicket)).contentTypeJson = true ∧
    (okCreateUpstream (payloadDict sampleTicket)).status = 201 ∧
    create_ticket sampleTicket okCreateUpstream =
      .ok (Json.obj
        [("id", Json.num 7), ("subject", Json.str "Help"),
         ("description", Json.str "It broke"), ("status", Json.num 2),
         ("priority", Json.num 1), ("requester_id", Json.num 42)]) ∧
    ("subject", Json.str "Help") ∈ payloadDict sampleTicket := by
  refine ⟨rfl, rfl, ?_, ?_⟩
  · rw [(create_ticket_success_projection sampleTicket okCreateUpstream rfl rfl).1]
    rfl
  · exact (create_ticket_success_projection sampleTicket okCreateUpstream rfl rfl).2.2.2.2.1

theorem contactsLoop_run (pages : Nat → Nat → Response) (number : String)
    (N : Nat)
    (hgood : ∀ p, 1 ≤ p → p < N →
      (pages p 100).status = 200 ∧ jsonFalsy (pages p 100).body = false)
    (hstop : (pages N 100).status ≠ 200 ∨ jsonFalsy (pages N 100).body = true) :
    ∀ fuel start, 1 ≤ start → start ≤ N → N < start + fuel →
      contactsLoop pages number fuel start =
        (if (pages N 100).status = 200
         then LoopRes.ok (matchedUpTo pages number start N)
         else .err (pages N 100).status (pages N 100).text) := by
  intro fuel
  induction fuel with
  | zero => intro start h1 h2 h3; omega
  | succ fuel ih =>
    intro start h1 h2 h3
    by_cases hsN : start = N
    · subst hsN
      by_cases h200 : (pages start 100).status = 200
      · have hfalsy : jsonFalsy (pages start 100).body = true :=
          hstop.resolve_left fun hc => hc h200
        simp [contactsLoop, h200, hfalsy, matchedUpTo]
      · simp [contactsLoop, h200]
    · have hlt : start < N := lt_of_le_of_ne h2 hsN
      obtain ⟨hs200, hsf⟩ := hgood start h1 hlt
      have hrec := ih (start + 1) (by omega) (by omega) (by omega)
      by_cases h200 : (pages N 100).status = 200
      · simp only [contactsLoop, hs200, hsf, hrec, h200, ne_eq,
          not_true_eq_false, Bool.false_eq_true, if_false, ite_true, ite_false]
        have hrange : N - start = (N - (start + 1)) + 1 := by omega
        simp only [matchedUpTo, hrange, List.range'_succ]
        simp
      · simp [contactsLoop, hs200, hsf, hrec, h200]

/-- C5: whenever some page `N` of the contacts listing is the first to answer
with an empty body (or with a non-200 status), the pagination loop, which
requests pages of size 100 in increasing order starting at page 1,
terminates there: on the empty page it stops having collected exactly the
contacts of pages `1..N-1` whose phone or mobile matches the target number,
and on a non-200 page it raises that status. -/
theorem contacts_pagination_terminates (pages : Nat → Nat → Response)
    (number : String) (N fuel : Nat) (hN : 1 ≤ N)
    (hgood : ∀ p, 1 ≤ p → p < N →
      (pages p 100).status = 200 ∧ jsonFalsy (pages p 100).body = false)
    (hstop : (pages N 100).status ≠ 200 ∨ jsonFalsy (pages N 100).body = true)
    (hfuel : N ≤ fuel) :
    contactsLoop pages number fuel 1 =
      (if (pages N 100).status = 200
       then LoopRes.ok (matchedUpTo pages number 1 N)
       else .err (pages N 100).status (pages N 100).text) ∧
    contactsLoop pages number fuel 1 ≠ .diverge := by
  have h := contactsLoop_run pages number N hgood hstop fuel 1 (le_refl 1) hN (by omega)
  refine ⟨h, ?_⟩
  rw [h]
  by_cases h200 : (pages N 100).status = 200 <;> simp [h200]

theorem contacts_pagination_terminates_witness :
    (1 : Nat) ≤ 2 ∧ jsonFalsy (pagesTwo 2 100).body = true ∧
    contactsLoop pagesTwo "123" 2 1 = .ok [contactA] ∧
    contactsLoop pagesTwo "123" 2 1 ≠ .diverge := by
  have h := contacts_pagination_terminates pagesTwo "123" 2 2 (by omega)
    (by
      intro p h1 h2
      have hp : p = 1 := by omega
      subst hp
      exact ⟨rfl, rfl⟩)
    (Or.inr rfl) (le_refl 2)
  refine ⟨by omega, rfl, ?_, h.2⟩
  rw [h.1]
  rfl

/-- C6: when the contact search matched at least one contact, it returns the
flattened record list of the matched contacts; a matched contact whose
ticket fetch answers non-200 contributes nothing and is silently skipped,
while each contact whose fetch answers 200 contributes one record per
returned ticket, so the operation still succeeds with the records of the
other contacts. -/
theorem search_skips_failed_ticket_fetch (pages : Nat → Nat → Response)
    (ticketsOf : Json → Response) (number : String) (fuel : Nat)
    (a : List Json) (c : Json) (b : List Json)
    (hloop : contactsLoop pages number fuel 1 = .ok (a ++ c :: b))
    (hfail : (ticketsOf (jget c "id")).status ≠ 200) :
    search_tickets_by_contact_number pages ticketsOf number fuel =
      .ok (Json.arr (resultsFor ticketsOf (a ++ c :: b))) ∧
    resultsFor ticketsOf (a ++ c :: b) = resultsFor ticketsOf (a ++ b) ∧
    (∀ d, (ticketsOf (jget d "id")).status = 200 →
      resultsFor ticketsOf [d] =
        (asList (ticketsOf (jget d "id")).body).map (ticketRecord d)) := by
  refine ⟨?_, ?_, fun d hd => ?_⟩
  · unfold search_tickets_by_contact_number
    rw [hloop]
    simp
  · unfold resultsFor
    simp [hfail]
  · simp [resultsFor, hd]

theorem search_skips_failed_ticket_fetch_witness :
    contactsLoop pagesWithBad "123" 2 1 = .ok ([contactA] ++ contactBad :: []) ∧
    (ticketsOracle (jget contactBad "id")).status ≠ 200 ∧
    search_tickets_by_contact_number pagesWithBad ticketsOracle "123" 2 =
      .ok (Json.arr [ticketRecord contactA ticket7]) := by
  refine ⟨rfl, by decide, ?_⟩
  rw [(search_skips_failed_ticket_fetch pagesWithBad ticketsOracle "123" 2
    [contactA] contactBad [] rfl (by decide)).1]
  rfl

end Freshdesk
